import Mathlib

/-!
Verification development for the nexus-rpc Python SDK dispatch core.

The definitions below are a shallow embedding of the source files under
`src/nexusrpc/`.  Python exceptions are modelled with `Except` over an explicit
error type, Python dicts with association lists (keys are unique in every use
site, matching dict semantics), and `async def` vs `def` methods with an
explicit boolean tag (the runtime `is_async_callable` introspection).  Real
time, threads and the asyncio event loop are modelled away: an awaited call is
a direct call.
-/

namespace Nexus

/-- Error types, from `HandlerErrorType` in `src/nexusrpc/_common.py`. -/
inductive HandlerErrorType where
  | UNKNOWN
  | BAD_REQUEST
  | UNAUTHENTICATED
  | UNAUTHORIZED
  | NOT_FOUND
  | REQUEST_TIMEOUT
  | CONFLICT
  | RESOURCE_EXHAUSTED
  | INTERNAL
  | NOT_IMPLEMENTED
  | UNAVAILABLE
  | UPSTREAM_TIMEOUT
deriving DecidableEq, Repr

/-- A Nexus handler error, from `HandlerError` in `src/nexusrpc/_common.py`.
Only the fields relevant to the dispatch core are modelled; the constructor
stores the message, the error type, and the optional per-instance
`retryable_override` (`None` when the caller did not override). -/
structure HandlerError where
  message : String
  type : HandlerErrorType
  retryable_override : Option Bool
deriving DecidableEq, Repr

/-- `HandlerError.retryable` from `src/nexusrpc/_common.py` (lines 184-214):
the override wins when present, otherwise the error type decides via the
`match` table in the source. -/
def HandlerError.retryable (e : HandlerError) : Bool :=
  match e.retryable_override with
  | some b => b
  | none =>
    match e.type with
    | .BAD_REQUEST | .UNAUTHENTICATED | .UNAUTHORIZED
    | .NOT_FOUND | .CONFLICT | .NOT_IMPLEMENTED => false
    | .RESOURCE_EXHAUSTED | .REQUEST_TIMEOUT | .INTERNAL
    | .UNAVAILABLE | .UPSTREAM_TIMEOUT | .UNKNOWN => true

/-- Python exceptions raised by the dispatch core, by Python class. -/
inductive PyErr where
  | handlerError (e : HandlerError)
  | runtimeError (msg : String)
  | notImplementedError (msg : String)
  | typeError (msg : String)
deriving DecidableEq, Repr

/-- Lexicographic comparison of code-point sequences: the order Python uses
when comparing strings (`Char.toNat` is the code point). -/
def lexLeb : List Char → List Char → Bool
  | [], _ => true
  | _ :: _, [] => false
  | a :: as, b :: bs =>
    if a.toNat = b.toNat then lexLeb as bs else decide (a.toNat < b.toNat)

/-- Python string ordering (used by `sorted(...)` on `str` keys). -/
def strLe (a b : String) : Prop := lexLeb a.data b.data = true

instance : DecidableRel strLe := fun a b => by
  unfold strLe; infer_instance

theorem lexLeb_total : ∀ as bs, lexLeb as bs = true ∨ lexLeb bs as = true := by
  intro as
  induction as with
  | nil => intro bs; left; rfl
  | cons a as ih =>
    intro bs
    cases bs with
    | nil => right; rfl
    | cons b bs =>
      by_cases hab : a.toNat = b.toNat
      · rcases ih bs with h | h
        · left; simp [lexLeb, hab, h]
        · right; simp [lexLeb, hab.symm, h]
      · rcases Nat.lt_or_ge a.toNat b.toNat with h | h
        · left; simp [lexLeb, hab, h]
        · have hba : b.toNat ≠ a.toNat := fun e => hab e.symm
          have : b.toNat < a.toNat := lt_of_le_of_ne h hba
          right; simp [lexLeb, hba, this]

theorem lexLeb_trans : ∀ as bs cs, lexLeb as bs = true → lexLeb bs cs = true →
    lexLeb as cs = true := by
  intro as
  induction as with
  | nil => intro bs cs _ _; rfl
  | cons a as ih =>
    intro bs cs h1 h2
    cases bs with
    | nil => simp [lexLeb] at h1
    | cons b bs =>
      cases cs with
      | nil => simp [lexLeb] at h2
      | cons c cs =>
        by_cases hab : a.toNat = b.toNat
        · by_cases hbc : b.toNat = c.toNat
          · simp [lexLeb, hab, hbc] at h1 h2 ⊢
            exact ih bs cs h1 h2
          · simp [lexLeb, hbc] at h2
            have hac : a.toNat ≠ c.toNat := by rw [hab]; exact hbc
            simp [lexLeb, hac, hab ▸ h2]
        · simp [lexLeb, hab] at h1
          by_cases hbc : b.toNat = c.toNat
          · have hac : a.toNat ≠ c.toNat := by rw [← hbc]; exact hab
            simp [lexLeb, hac, hbc ▸ h1]
          · simp [lexLeb, hbc] at h2
            have hlt := Nat.lt_trans h1 h2
            have hac : a.toNat ≠ c.toNat := Nat.ne_of_lt hlt
            simp [lexLeb, hac, hlt]

instance : IsTotal String strLe := ⟨fun a b => lexLeb_total a.data b.data⟩

instance : IsTrans String strLe := ⟨fun a b c => lexLeb_trans a.data b.data c.data⟩

/-- Model of Python `sorted(...)` on a list of strings (any stable sort agrees
on lists of distinct keys; dict keys are distinct). -/
def sortedStrings (l : List String) : List String := List.insertionSort strLe l

/-- Model of Python `dict.get` / subscript lookup on a dict represented as an
association list in insertion order (dict keys are unique). -/
def dictGet {α : Type} (k : String) (m : List (String × α)) : Option α :=
  List.lookup k m

/-- `StartOperationContext`.  Modelled from the spec: the context dataclasses
live in `nexusrpc/handler/_common.py`, which is not under `src/`; §3 of the
spec gives their shape (`StartContext{service, operation, headers, requestId,
...}`).  Only the fields the dispatch core reads are modelled. -/
structure StartOperationContext where
  service : String
  operation : String
  headers : List (String × String)
  request_id : String
deriving DecidableEq, Repr

/-- `CancelOperationContext`.  Modelled from the spec (see
`StartOperationContext`). -/
structure CancelOperationContext where
  service : String
  operation : String
  headers : List (String × String)
deriving DecidableEq, Repr

/-- `FetchOperationInfoContext`.  Modelled from the spec (see
`StartOperationContext`). -/
structure FetchOperationInfoContext where
  service : String
  operation : String
  headers : List (String × String)
deriving DecidableEq, Repr

/-- `FetchOperationResultContext`.  Modelled from the spec (see
`StartOperationContext`); `wait` is the optional wait duration read by
`Handler.fetch_operation_result` (its unit is irrelevant to the dispatch
logic, which only tests it against `None`). -/
structure FetchOperationResultContext where
  service : String
  operation : String
  headers : List (String × String)
  wait : Option Nat
deriving DecidableEq, Repr

/-- `StartOperationResultSync` / `StartOperationResultAsync`: the two possible
results of starting an operation. -/
inductive StartOperationResult (V : Type) where
  | sync (value : V)
  | async (token : String)
deriving DecidableEq, Repr

/-- `OperationState` from `src/nexusrpc/__init__.py`. -/
inductive OperationState where
  | SUCCEEDED
  | FAILED
  | CANCELED
  | RUNNING
deriving DecidableEq, Repr

/-- `OperationInfo` from `src/nexusrpc/__init__.py`. -/
structure OperationInfo where
  token : String
  state : OperationState
deriving DecidableEq, Repr

/-- A stand-in for a Python runtime type object referenced by an operation
definition: `typing.Any` or a class, identified by a numeric id. -/
inductive PyType where
  | any
  | cls (id : Nat)
deriving DecidableEq, Repr

/-- `Operation` from `src/nexusrpc/_service_definition.py`: operation name,
optional bound method name, optional input/output types. -/
structure Operation where
  name : String
  method_name : Option String
  input_type : Option PyType
  output_type : Option PyType
deriving DecidableEq, Repr

/-- `ServiceDefinition` from `src/nexusrpc/_service_definition.py`: a service
name plus a mapping of public operation name to `Operation`, in insertion
order. -/
structure ServiceDefinition where
  name : String
  operations : List (String × Operation)
deriving DecidableEq, Repr

/-- An operation handler (`OperationHandler` in
`src/nexusrpc/handler/_operation_handler.py`): the four methods, each paired
with the result of the runtime `is_async_callable` test on it.  Methods are
modelled as pure functions returning `Except PyErr`; awaiting is collapsed. -/
structure OperationHandler (V : Type) where
  startIsAsync : Bool
  start : StartOperationContext → V → Except PyErr (StartOperationResult V)
  cancelIsAsync : Bool
  cancel : CancelOperationContext → String → Except PyErr Unit
  fetchInfoIsAsync : Bool
  fetch_info : FetchOperationInfoContext → String → Except PyErr OperationInfo
  fetchResultIsAsync : Bool
  fetch_result : FetchOperationResultContext → String → Except PyErr V

/-- `ServiceHandler` from `src/nexusrpc/handler/_core.py`: a service
definition plus operation handlers keyed by public operation name. -/
structure ServiceHandler (V : Type) where
  service : ServiceDefinition
  operation_handlers : List (String × OperationHandler V)

/-- The state of a constructed `Handler` (`BaseHandler` fields in
`src/nexusrpc/handler/_core.py`): the optional executor and the registry of
service handlers keyed by service name. -/
structure Handler (V : Type) where
  executor : Option Unit
  service_handlers : List (String × ServiceHandler V)

/-- `LazyValue`: collaborator wrapping an as-yet-undecoded request value.  The
serializer is abstracted: the lazy value already carries the decoded value and
`consume` returns it. -/
structure LazyValue (V : Type) where
  value : V
deriving DecidableEq, Repr

def LazyValue.consume {V : Type} (lv : LazyValue V) : V := lv.value

/-- Message raised by `BaseHandler._get_service_handler` for an unknown
service (`src/nexusrpc/handler/_core.py` lines 185-193). -/
def serviceNotFoundMessage (service_name : String) : String :=
  "No handler for service \x27" ++ service_name ++ "\x27."

/-- Message raised by `ServiceHandler._get_operation_handler` when the
operation is not in the service definition (`src/nexusrpc/handler/_core.py`
lines 496-506): counts the operations and, when there are any, enumerates
their names sorted. -/
def operationNotFoundMessage (service : ServiceDefinition) (operation : String) : String :=
  let msg := "Nexus service definition \x27" ++ service.name ++ "\x27 has no operation \x27"
    ++ operation ++ "\x27. There are " ++ toString service.operations.length
    ++ " operations in the definition"
  let msg := if service.operations.isEmpty then msg
    else msg ++ ": " ++ String.intercalate ", " (sortedStrings (service.operations.map Prod.fst))
  msg ++ "."

/-- Message raised by `ServiceHandler._get_operation_handler` when the
operation is in the definition but has no handler (`src/nexusrpc/handler/_core.py`
lines 507-519). -/
def operationHandlerMissingMessage {V : Type} (sh : ServiceHandler V) (operation : String) : String :=
  let msg := "Nexus service implementation \x27" ++ sh.service.name ++ "\x27 has no handler for operation \x27"
    ++ operation ++ "\x27. There are " ++ toString sh.operation_handlers.length
    ++ " available operation handlers"
  let msg := if sh.operation_handlers.isEmpty then msg
    else msg ++ ": " ++ String.intercalate ", " (sortedStrings (sh.operation_handlers.map Prod.fst))
  msg ++ "."

/-- `BaseHandler._get_service_handler` from `src/nexusrpc/handler/_core.py`. -/
def Handler.get_service_handler {V : Type} (h : Handler V) (service_name : String) :
    Except PyErr (ServiceHandler V) :=
  match dictGet service_name h.service_handlers with
  | none => .error (.handlerError (HandlerError.mk (serviceNotFoundMessage service_name)
      .NOT_FOUND none))
  | some s => .ok s

/-- `ServiceHandler._get_operation_handler` from
`src/nexusrpc/handler/_core.py`. -/
def ServiceHandler.get_operation_handler {V : Type} (sh : ServiceHandler V) (operation : String) :
    Except PyErr (OperationHandler V) :=
  if (dictGet operation sh.service.operations).isNone then
    .error (.handlerError (HandlerError.mk (operationNotFoundMessage sh.service operation)
      .NOT_FOUND none))
  else
    match dictGet operation sh.operation_handlers with
    | none => .error (.handlerError (HandlerError.mk (operationHandlerMissingMessage sh operation)
        .NOT_FOUND none))
    | some oph => .ok oph

/-- Message raised by `Handler.start_operation` for a non-`async def` start
method with no executor (string fidelity includes the source's trailing
space). -/
def startNoExecutorMessage : String :=
  "Operation start handler method is not an `async def` but no executor was provided to the Handler constructor. "

def cancelNoExecutorMessage : String :=
  "Operation cancel handler method is not an `async def` function but no executor was provided to the Handler constructor."

def fetchInfoNoExecutorMessage : String :=
  "Operation fetch_info handler method is not an `async def` function but no executor was provided to the Handler constructor."

def fetchResultNoExecutorMessage : String :=
  "Operation fetch_result handler method is not an `async def` function but no executor was provided to the Handler constructor."

def fetchResultWaitNotSupportedMessage : String :=
  "The Nexus SDK is in pre-release and does not support the fetch result wait parameter or request-timeout header."

/-- `Handler.start_operation` from `src/nexusrpc/handler/_core.py`: route to
the service handler, then the operation handler, consume the input, then run
the start method (inline when `async def`, else on the executor, which must
exist).  The defensive `inspect.isawaitable` check on a `def` method's result
cannot fire in this model, where methods return their declared result type. -/
def Handler.start_operation {V : Type} (h : Handler V) (ctx : StartOperationContext)
    (input : LazyValue V) : Except PyErr (StartOperationResult V) := do
  let service_handler ← h.get_service_handler ctx.service
  let op_handler ← service_handler.get_operation_handler ctx.operation
  let deserialized_input := input.consume
  if op_handler.startIsAsync then
    op_handler.start ctx deserialized_input
  else
    match h.executor with
    | none => .error (.runtimeError startNoExecutorMessage)
    | some _ => op_handler.start ctx deserialized_input

/-- `Handler.cancel_operation` from `src/nexusrpc/handler/_core.py`. -/
def Handler.cancel_operation {V : Type} (h : Handler V) (ctx : CancelOperationContext)
    (token : String) : Except PyErr Unit := do
  let service_handler ← h.get_service_handler ctx.service
  let op_handler ← service_handler.get_operation_handler ctx.operation
  if op_handler.cancelIsAsync then
    op_handler.cancel ctx token
  else
    match h.executor with
    | none => .error (.runtimeError cancelNoExecutorMessage)
    | some _ => op_handler.cancel ctx token

/-- `Handler.fetch_operation_info` from `src/nexusrpc/handler/_core.py`. -/
def Handler.fetch_operation_info {V : Type} (h : Handler V) (ctx : FetchOperationInfoContext)
    (token : String) : Except PyErr OperationInfo := do
  let service_handler ← h.get_service_handler ctx.service
  let op_handler ← service_handler.get_operation_handler ctx.operation
  if op_handler.fetchInfoIsAsync then
    op_handler.fetch_info ctx token
  else
    match h.executor with
    | none => .error (.runtimeError fetchInfoNoExecutorMessage)
    | some _ => op_handler.fetch_info ctx token

/-- Truthiness of `ctx.headers.get("request-timeout")`: an absent key and the
empty string are falsy. -/
def requestTimeoutHeaderTruthy (headers : List (String × String)) : Bool :=
  match dictGet "request-timeout" headers with
  | none => false
  | some s => !(s == "")

/-- `Handler.fetch_operation_result` from `src/nexusrpc/handler/_core.py`
(lines 341-367): the wait/request-timeout guard runs before any routing. -/
def Handler.fetch_operation_result {V : Type} (h : Handler V) (ctx : FetchOperationResultContext)
    (token : String) : Except PyErr V :=
  if ctx.wait.isSome || requestTimeoutHeaderTruthy ctx.headers then
    .error (.notImplementedError fetchResultWaitNotSupportedMessage)
  else do
    let service_handler ← h.get_service_handler ctx.service
    let op_handler ← service_handler.get_operation_handler ctx.operation
    if op_handler.fetchResultIsAsync then
      op_handler.fetch_result ctx token
    else
      match h.executor with
      | none => .error (.runtimeError fetchResultNoExecutorMessage)
      | some _ => op_handler.fetch_result ctx token

/-- Concrete fixtures used by witness theorems. -/
def opFixture (n : String) : Operation := Operation.mk n (some n) none none

def ophFixture : OperationHandler Nat :=
  OperationHandler.mk
    true (fun _ v => .ok (.sync v))
    true (fun _ _ => .ok ())
    true (fun _ _ => .ok (OperationInfo.mk "t" .RUNNING))
    true (fun _ _ => .ok 0)

def svcFixture : ServiceDefinition :=
  ServiceDefinition.mk "svc" [("opb", opFixture "opb"), ("opa", opFixture "opa")]

def shFixture : ServiceHandler Nat :=
  ServiceHandler.mk svcFixture [("opb", ophFixture), ("opa", ophFixture)]

def hFixture : Handler Nat := Handler.mk (some ()) [("svc", shFixture)]

end Nexus

namespace Nexus

/-- C1: A `HandlerError` constructed with an explicit retryable override reports
that override from its `retryable` property; with no override, `retryable` is
the type default: `false` for BAD_REQUEST, UNAUTHENTICATED, UNAUTHORIZED,
NOT_FOUND, CONFLICT, NOT_IMPLEMENTED and `true` for RESOURCE_EXHAUSTED,
REQUEST_TIMEOUT, INTERNAL, UNAVAILABLE, UPSTREAM_TIMEOUT, UNKNOWN.  In
particular RESOURCE_EXHAUSTED with no override is retryable, the same type
with override `false` is not, and BAD_REQUEST with no override is not. -/
theorem C1_handler_error_retryable :
    (∀ (m : String) (t : HandlerErrorType) (b : Bool),
      (HandlerError.mk m t (some b)).retryable = b)
    ∧ (∀ m : String,
        (HandlerError.mk m .BAD_REQUEST none).retryable = false
        ∧ (HandlerError.mk m .UNAUTHENTICATED none).retryable = false
        ∧ (HandlerError.mk m .UNAUTHORIZED none).retryable = false
        ∧ (HandlerError.mk m .NOT_FOUND none).retryable = false
        ∧ (HandlerError.mk m .CONFLICT none).retryable = false
        ∧ (HandlerError.mk m .NOT_IMPLEMENTED none).retryable = false
        ∧ (HandlerError.mk m .RESOURCE_EXHAUSTED none).retryable = true
        ∧ (HandlerError.mk m .REQUEST_TIMEOUT none).retryable = true
        ∧ (HandlerError.mk m .INTERNAL none).retryable = true
        ∧ (HandlerError.mk m .UNAVAILABLE none).retryable = true
        ∧ (HandlerError.mk m .UPSTREAM_TIMEOUT none).retryable = true
        ∧ (HandlerError.mk m .UNKNOWN none).retryable = true)
    ∧ (HandlerError.mk "e" .RESOURCE_EXHAUSTED none).retryable = true
    ∧ (HandlerError.mk "e" .RESOURCE_EXHAUSTED (some false)).retryable = false
    ∧ (HandlerError.mk "e" .BAD_REQUEST none).retryable = false := by
  refine ⟨fun m t b => rfl, fun m => ?_, rfl, rfl, rfl⟩
  exact ⟨rfl, rfl, rfl, rfl, rfl, rfl, rfl, rfl, rfl, rfl, rfl, rfl⟩

end Nexus

namespace Nexus

/-- C2: For every dispatched request (start, cancel, fetch info, fetch
result): an unregistered service name fails with a NOT_FOUND `HandlerError`
whose message is the fixed service-not-found text (listing no operation
names); a registered service with an unknown operation name fails with a
NOT_FOUND `HandlerError` whose message enumerates the known operation names in
sorted order, and renders without names when the operation set is empty.  The
final conjunct pins down the message shape: with no operations the message is
the bare count text, otherwise it ends with the comma-separated enumeration of
a sorted permutation of the known names. -/
theorem C2_routing_not_found :
    (∀ (V : Type) (h : Handler V),
      (∀ (ctx : StartOperationContext) (input : LazyValue V),
        dictGet ctx.service h.service_handlers = none →
        h.start_operation ctx input = .error (.handlerError
          (HandlerError.mk (serviceNotFoundMessage ctx.service) .NOT_FOUND none)))
      ∧ (∀ (ctx : CancelOperationContext) (token : String),
        dictGet ctx.service h.service_handlers = none →
        h.cancel_operation ctx token = .error (.handlerError
          (HandlerError.mk (serviceNotFoundMessage ctx.service) .NOT_FOUND none)))
      ∧ (∀ (ctx : FetchOperationInfoContext) (token : String),
        dictGet ctx.service h.service_handlers = none →
        h.fetch_operation_info ctx token = .error (.handlerError
          (HandlerError.mk (serviceNotFoundMessage ctx.service) .NOT_FOUND none)))
      ∧ (∀ (ctx : FetchOperationResultContext) (token : String),
        ctx.wait = none → requestTimeoutHeaderTruthy ctx.headers = false →
        dictGet ctx.service h.service_handlers = none →
        h.fetch_operation_result ctx token = .error (.handlerError
          (HandlerError.mk (serviceNotFoundMessage ctx.service) .NOT_FOUND none)))
      ∧ (∀ (ctx : StartOperationContext) (input : LazyValue V) (sh : ServiceHandler V),
        dictGet ctx.service h.service_handlers = some sh →
        dictGet ctx.operation sh.service.operations = none →
        h.start_operation ctx input = .error (.handlerError
          (HandlerError.mk (operationNotFoundMessage sh.service ctx.operation) .NOT_FOUND none)))
      ∧ (∀ (ctx : CancelOperationContext) (token : String) (sh : ServiceHandler V),
        dictGet ctx.service h.service_handlers = some sh →
        dictGet ctx.operation sh.service.operations = none →
        h.cancel_operation ctx token = .error (.handlerError
          (HandlerError.mk (operationNotFoundMessage sh.service ctx.operation) .NOT_FOUND none)))
      ∧ (∀ (ctx : FetchOperationInfoContext) (token : String) (sh : ServiceHandler V),
        dictGet ctx.service h.service_handlers = some sh →
        dictGet ctx.operation sh.service.operations = none →
        h.fetch_operation_info ctx token = .error (.handlerError
          (HandlerError.mk (operationNotFoundMessage sh.service ctx.operation) .NOT_FOUND none)))
      ∧ (∀ (ctx : FetchOperationResultContext) (token : String) (sh : ServiceHandler V),
        ctx.wait = none → requestTimeoutHeaderTruthy ctx.headers = false →
        dictGet ctx.service h.service_handlers = some sh →
        dictGet ctx.operation sh.service.operations = none →
        h.fetch_operation_result ctx token = .error (.handlerError
          (HandlerError.mk (operationNotFoundMessage sh.service ctx.operation) .NOT_FOUND none))))
    ∧ (∀ (service : ServiceDefinition) (operation : String),
      (service.operations = [] →
        operationNotFoundMessage service operation =
          "Nexus service definition \x27" ++ service.name ++ "\x27 has no operation \x27"
            ++ operation ++ "\x27. There are " ++ toString service.operations.length
            ++ " operations in the definition" ++ ".")
      ∧ (service.operations ≠ [] → ∃ names : List String,
        names.Perm (service.operations.map Prod.fst)
        ∧ List.Sorted strLe names
        ∧ operationNotFoundMessage service operation =
          "Nexus service definition \x27" ++ service.name ++ "\x27 has no operation \x27"
            ++ operation ++ "\x27. There are " ++ toString service.operations.length
            ++ " operations in the definition" ++ ": "
            ++ String.intercalate ", " names ++ ".")) := by
  constructor
  · intro V h
    refine ⟨?_, ?_, ?_, ?_, ?_, ?_, ?_, ?_⟩
    · intro ctx input hserv
      simp [Handler.start_operation, Handler.get_service_handler, hserv, Except.bind, bind]
    · intro ctx token hserv
      simp [Handler.cancel_operation, Handler.get_service_handler, hserv, Except.bind, bind]
    · intro ctx token hserv
      simp [Handler.fetch_operation_info, Handler.get_service_handler, hserv, Except.bind, bind]
    · intro ctx token hwait hhdr hserv
      simp [Handler.fetch_operation_result, Handler.get_service_handler, hserv, hwait, hhdr,
        Except.bind, bind]
    · intro ctx input sh hserv hop
      simp [Handler.start_operation, Handler.get_service_handler,
        ServiceHandler.get_operation_handler, hserv, hop, Except.bind, bind]
    · intro ctx token sh hserv hop
      simp [Handler.cancel_operation, Handler.get_service_handler,
        ServiceHandler.get_operation_handler, hserv, hop, Except.bind, bind]
    · intro ctx token sh hserv hop
      simp [Handler.fetch_operation_info, Handler.get_service_handler,
        ServiceHandler.get_operation_handler, hserv, hop, Except.bind, bind]
    · intro ctx token sh hwait hhdr hserv hop
      simp [Handler.fetch_operation_result, Handler.get_service_handler,
        ServiceHandler.get_operation_handler, hserv, hop, hwait, hhdr, Except.bind, bind]
  · intro service operation
    constructor
    · intro hempty
      simp [operationNotFoundMessage, hempty]
    · intro hne
      refine ⟨sortedStrings (service.operations.map Prod.fst), ?_, ?_, ?_⟩
      · exact List.perm_insertionSort strLe _
      · exact List.sorted_insertionSort strLe _
      · have : service.operations.isEmpty = false := by
          cases hops : service.operations with
          | nil => exact absurd hops hne
          | cons a l => rfl
        simp [operationNotFoundMessage, this, sortedStrings]

/-- Witness for C2 at concrete inputs: an unknown service for start and an
unknown operation for fetch result, on the fixture handler. -/
theorem C2_routing_not_found_witness :
    (hFixture.start_operation (StartOperationContext.mk "zzz" "opa" [] "rid") (LazyValue.mk 5)
      = .error (.handlerError (HandlerError.mk (serviceNotFoundMessage "zzz") .NOT_FOUND none)))
    ∧ (hFixture.fetch_operation_result (FetchOperationResultContext.mk "svc" "nope" [] none) "tok"
      = .error (.handlerError
          (HandlerError.mk (operationNotFoundMessage svcFixture "nope") .NOT_FOUND none))) := by
  constructor
  · exact (C2_routing_not_found.1 Nat hFixture).1 _ _ rfl
  · exact (C2_routing_not_found.1 Nat hFixture).2.2.2.2.2.2.2 _ _ shFixture rfl rfl rfl rfl

/-- C10: When a fetch-result request carries a non-`None` wait or a non-empty
`request-timeout` header, `Handler.fetch_operation_result` raises
`NotImplementedError` with the fixed pre-release message.  The conclusion
holds for every handler state `h`, so the outcome is independent of the
registry and of every operation handler: no routing is consulted and no
handler code can run (the model is pure, so there is no state to change). -/
theorem C10_fetch_result_wait_guard :
    ∀ (V : Type) (h : Handler V) (ctx : FetchOperationResultContext) (token : String),
      (ctx.wait ≠ none ∨ ∃ s, dictGet "request-timeout" ctx.headers = some s ∧ s ≠ "") →
      h.fetch_operation_result ctx token
        = .error (.notImplementedError fetchResultWaitNotSupportedMessage) := by
  intro V h ctx token hcond
  have hguard : (ctx.wait.isSome || requestTimeoutHeaderTruthy ctx.headers) = true := by
    rcases hcond with hw | ⟨s, hs, hne⟩
    · cases hwv : ctx.wait with
      | none => exact absurd hwv hw
      | some v => simp [hwv]
    · have : requestTimeoutHeaderTruthy ctx.headers = true := by
        simp [requestTimeoutHeaderTruthy, hs, hne]
      simp [this]
  simp [Handler.fetch_operation_result, hguard]

/-- Witness for C10: a request with `wait` set against the fixture handler
(whose fetch-result handler would otherwise succeed). -/
theorem C10_fetch_result_wait_guard_witness :
    hFixture.fetch_operation_result (FetchOperationResultContext.mk "svc" "opa" [] (some 1)) "tok"
      = .error (.notImplementedError fetchResultWaitNotSupportedMessage) := by
  exact C10_fetch_result_wait_guard Nat hFixture _ "tok" (Or.inl (by simp))

end Nexus

namespace Nexus

/-- Message raised by `BaseHandler.__init__` for a duplicate service name
(`src/nexusrpc/handler/_core.py` lines 169-172). -/
def duplicateServiceMessage (name : String) : String :=
  "Service \x27" ++ name ++ "\x27 has already been registered."

/-- Message raised by `BaseHandler.__init__` for a non-`async def` start
method with no executor (lines 176-178). -/
def startNotAsyncMessage (service_name op_name : String) : String :=
  "Service \x27" ++ service_name ++ "\x27 operation \x27" ++ op_name
    ++ "\x27 start method must be an `async def` if no executor is provided."

/-- Message raised by `BaseHandler.__init__` for a non-`async def` cancel
method with no executor (lines 180-182). -/
def cancelNotAsyncMessage (service_name op_name : String) : String :=
  "Service \x27" ++ service_name ++ "\x27 operation \x27" ++ op_name
    ++ "\x27 cancel method must be an `async def` if no executor is provided."

/-- The per-service loop body of `BaseHandler.__init__` run with no executor:
the first operation whose start (then cancel) method is not `async def`
produces a `RuntimeError`. -/
def checkOpsAsync {V : Type} (service_name : String) :
    List (String × OperationHandler V) → Option PyErr
  | [] => none
  | (op_name, oh) :: rest =>
    if !oh.startIsAsync then
      some (.runtimeError (startNotAsyncMessage service_name op_name))
    else if !oh.cancelIsAsync then
      some (.runtimeError (cancelNotAsyncMessage service_name op_name))
    else checkOpsAsync service_name rest

/-- The registration loop of `BaseHandler.__init__`
(`src/nexusrpc/handler/_core.py` lines 156-183): for each service handler, the
duplicate-name check runs first, then (when no executor was supplied) every
operation handler's start and cancel methods must be `async def`; the handler
is then registered under its service name.  `acc` is the
`self.service_handlers` dict built so far. -/
def registerAll {V : Type} (executor : Option Unit)
    (acc : List (String × ServiceHandler V)) :
    List (ServiceHandler V) → Except PyErr (List (String × ServiceHandler V))
  | [] => .ok acc
  | sh :: rest =>
    if (dictGet sh.service.name acc).isSome then
      .error (.runtimeError (duplicateServiceMessage sh.service.name))
    else
      match executor with
      | some _ => registerAll executor (acc ++ [(sh.service.name, sh)]) rest
      | none =>
        match checkOpsAsync sh.service.name sh.operation_handlers with
        | some e => .error e
        | none => registerAll executor (acc ++ [(sh.service.name, sh)]) rest

/-- `BaseHandler.__init__`: build the handler state from user service
handlers (already `ServiceHandler` instances, a supported input) and the
optional executor. -/
def Handler.init {V : Type} (user_service_handlers : List (ServiceHandler V))
    (executor : Option Unit) : Except PyErr (Handler V) :=
  (registerAll executor [] user_service_handlers).map (fun m => Handler.mk executor m)

/-- The executor is compatible with a collection of service handlers: either
it is present, or every operation's start and cancel methods are `async def`. -/
def handlersCompatible {V : Type} (executor : Option Unit)
    (shs : List (ServiceHandler V)) : Prop :=
  executor.isSome = true
    ∨ ∀ sh ∈ shs, checkOpsAsync sh.service.name sh.operation_handlers = none

theorem dictGet_eq_none_iff {α : Type} (k : String) (l : List (String × α)) :
    dictGet k l = none ↔ k ∉ l.map Prod.fst := by
  induction l with
  | nil => simp [dictGet, List.lookup]
  | cons p l ih =>
    cases p with
    | mk k' v =>
      by_cases h : k = k'
      · simp [dictGet, List.lookup, h]
      · have hb : (k == k') = false := by simp [h]
        simp only [dictGet, List.lookup, hb] at *
        simp [h, ih]

theorem dictGet_append_of_none {α : Type} (k : String) (l l' : List (String × α))
    (h : dictGet k l = none) : dictGet k (l ++ l') = dictGet k l' := by
  induction l with
  | nil => rfl
  | cons p l ih =>
    cases p with
    | mk k' v =>
      by_cases hk : k = k'
      · simp [dictGet, List.lookup, hk] at h
      · have hb : (k == k') = false := by simp [hk]
        simp only [dictGet, List.lookup, List.cons_append, hb] at *
        exact ih h

theorem checkOpsAsync_eq_none {V : Type} (service_name : String)
    (ops : List (String × OperationHandler V)) :
    checkOpsAsync service_name ops = none ↔
      ∀ p ∈ ops, (p.2).startIsAsync = true ∧ (p.2).cancelIsAsync = true := by
  induction ops with
  | nil => simp [checkOpsAsync]
  | cons p rest ih =>
    cases p with
    | mk op_name oh =>
      cases hs : oh.startIsAsync with
      | false => simp [checkOpsAsync, hs]
      | true =>
        cases hc : oh.cancelIsAsync with
        | false => simp [checkOpsAsync, hs, hc]
        | true => simp [checkOpsAsync, hs, hc, ih]

theorem registerAll_ok_eq {V : Type} (executor : Option Unit) :
    ∀ (shs : List (ServiceHandler V)) (acc m : List (String × ServiceHandler V)),
      registerAll executor acc shs = .ok m →
      m = acc ++ shs.map (fun sh => (sh.service.name, sh)) := by
  intro shs
  induction shs with
  | nil =>
    intro acc m h
    simp [registerAll] at h
    simp [h.symm]
  | cons sh rest ih =>
    intro acc m h
    unfold registerAll at h
    by_cases hdup : (dictGet sh.service.name acc).isSome
    · simp [hdup] at h
    · simp only [hdup, if_neg, Bool.false_eq_true, not_false_iff, ite_false] at h
      cases executor with
      | some u =>
        have := ih _ _ h
        simpa [List.append_assoc] using this
      | none =>
        cases hchk : checkOpsAsync sh.service.name sh.operation_handlers with
        | some e => rw [hchk] at h; exact absurd h (by simp)
        | none =>
          rw [hchk] at h
          have := ih _ _ h
          simpa [List.append_assoc] using this

theorem registerAll_none_ok_all_async {V : Type} :
    ∀ (shs : List (ServiceHandler V)) (acc m : List (String × ServiceHandler V)),
      registerAll none acc shs = .ok m →
      ∀ sh ∈ shs, checkOpsAsync sh.service.name sh.operation_handlers = none := by
  intro shs
  induction shs with
  | nil => intro acc m _ sh hmem; exact absurd hmem (List.not_mem_nil sh)
  | cons sh0 rest ih =>
    intro acc m h sh hmem
    unfold registerAll at h
    by_cases hdup : (dictGet sh0.service.name acc).isSome
    · simp [hdup] at h
    · simp only [hdup, if_neg, Bool.false_eq_true, not_false_iff, ite_false] at h
      cases hchk : checkOpsAsync sh0.service.name sh0.operation_handlers with
      | some e => rw [hchk] at h; exact absurd h (by simp)
      | none =>
        rw [hchk] at h
        rcases List.mem_cons.mp hmem with heq | hmem'
        · rw [heq]; exact hchk
        · exact ih _ _ h sh hmem'

theorem registerAll_ok {V : Type} (executor : Option Unit) :
    ∀ (shs : List (ServiceHandler V)) (acc : List (String × ServiceHandler V)),
      (shs.map (fun sh => sh.service.name)).Nodup →
      (∀ sh ∈ shs, dictGet sh.service.name acc = none) →
      handlersCompatible executor shs →
      registerAll executor acc shs
        = .ok (acc ++ shs.map (fun sh => (sh.service.name, sh))) := by
  intro shs
  induction shs with
  | nil => intro acc _ _ _; simp [registerAll]
  | cons sh rest ih =>
    intro acc hnodup hdisj hcompat
    have hnone : dictGet sh.service.name acc = none := hdisj sh (List.mem_cons_self sh rest)
    have hnotmem : sh.service.name ∉ rest.map (fun sh => sh.service.name) :=
      (List.nodup_cons.mp hnodup).1
    have hnodup' : (rest.map (fun sh => sh.service.name)).Nodup :=
      (List.nodup_cons.mp hnodup).2
    have hdisj' : ∀ sh' ∈ rest, dictGet sh'.service.name (acc ++ [(sh.service.name, sh)]) = none := by
      intro sh' hmem
      rw [dictGet_append_of_none _ _ _ (hdisj sh' (List.mem_cons_of_mem sh hmem))]
      have hne : sh'.service.name ≠ sh.service.name := by
        intro he
        have hmm : sh'.service.name ∈ rest.map (fun sh => sh.service.name) :=
          List.mem_map_of_mem (fun sh => sh.service.name) hmem
        rw [he] at hmm
        exact hnotmem hmm
      have hb : (sh'.service.name == sh.service.name) = false := by simp [hne]
      simp [dictGet, List.lookup, hb]
    have hcompat' : handlersCompatible executor rest := by
      rcases hcompat with h | h
      · exact Or.inl h
      · exact Or.inr fun sh' hm => h sh' (List.mem_cons_of_mem sh hm)
    unfold registerAll
    rw [hnone]
    simp only [Option.isSome_none, Bool.false_eq_true, if_false]
    cases executor with
    | some u =>
      rw [ih _ hnodup' hdisj' hcompat']
      simp [List.append_assoc]
    | none =>
      have hchk : checkOpsAsync sh.service.name sh.operation_handlers = none := by
        rcases hcompat with h | h
        · simp at h
        · exact h sh (List.mem_cons_self sh rest)
      rw [hchk, ih _ hnodup' hdisj' hcompat']
      simp [List.append_assoc]

theorem registerAll_dup {V : Type} (executor : Option Unit) :
    ∀ (shs : List (ServiceHandler V)) (acc : List (String × ServiceHandler V)),
      handlersCompatible executor shs →
      (acc.map Prod.fst).Nodup →
      ¬ (acc.map Prod.fst ++ shs.map (fun sh => sh.service.name)).Nodup →
      ∃ n, registerAll executor acc shs = .error (.runtimeError (duplicateServiceMessage n))
        ∧ 2 ≤ (acc.map Prod.fst ++ shs.map (fun sh => sh.service.name)).count n := by
  intro shs
  induction shs with
  | nil =>
    intro acc _ hacc hnd
    simp only [List.map_nil, List.append_nil] at hnd
    exact absurd hacc hnd
  | cons sh rest ih =>
    intro acc hcompat hacc hnd
    by_cases hdup : (dictGet sh.service.name acc).isSome
    · refine ⟨sh.service.name, ?_, ?_⟩
      · unfold registerAll
        rw [if_pos hdup]
      · have hmemacc : sh.service.name ∈ acc.map Prod.fst := by
          by_contra hnot
          rw [← dictGet_eq_none_iff] at hnot
          rw [hnot] at hdup
          simp at hdup
        have h1 : 1 ≤ (acc.map Prod.fst).count sh.service.name :=
          List.count_pos_iff.mpr hmemacc
        have h2 : 1 ≤ ((sh :: rest).map (fun sh => sh.service.name)).count sh.service.name := by
          apply List.count_pos_iff.mpr
          simp
        rw [List.count_append]
        omega
    · have hnone : dictGet sh.service.name acc = none := by
        cases hv : dictGet sh.service.name acc with
        | none => rfl
        | some v => rw [hv] at hdup; simp at hdup
      have hnotmem : sh.service.name ∉ acc.map Prod.fst :=
        (dictGet_eq_none_iff _ _).mp hnone
      have hacc' : ((acc ++ [(sh.service.name, sh)]).map Prod.fst).Nodup := by
        rw [List.map_append]
        simp [List.nodup_append, hacc, hnotmem]
      have hlists : (acc ++ [(sh.service.name, sh)]).map Prod.fst
          ++ rest.map (fun sh => sh.service.name)
          = acc.map Prod.fst ++ (sh :: rest).map (fun sh => sh.service.name) := by
        simp [List.map_append, List.append_assoc]
      have hcompat' : handlersCompatible executor rest := by
        rcases hcompat with h | h
        · exact Or.inl h
        · exact Or.inr fun sh' hm => h sh' (List.mem_cons_of_mem sh hm)
      have hnd' : ¬ ((acc ++ [(sh.service.name, sh)]).map Prod.fst
          ++ rest.map (fun sh => sh.service.name)).Nodup := by
        rw [hlists]; exact hnd
      rcases ih _ hcompat' hacc' hnd' with ⟨n, herr, hcount⟩
      refine ⟨n, ?_, ?_⟩
      · unfold registerAll
        rw [if_neg (by simp [hnone])]
        cases executor with
        | some u => exact herr
        | none =>
          have hchk : checkOpsAsync sh.service.name sh.operation_handlers = none := by
            rcases hcompat with h | h
            · simp at h
            · exact h sh (List.mem_cons_self sh rest)
          rw [hchk]
          exact herr
      · rw [← hlists]
        exact hcount

theorem dictGet_map_pairs {V : Type} :
    ∀ (shs : List (ServiceHandler V)),
      (shs.map (fun sh => sh.service.name)).Nodup →
      ∀ sh ∈ shs,
        dictGet sh.service.name (shs.map (fun sh => (sh.service.name, sh))) = some sh := by
  intro shs
  induction shs with
  | nil => intro _ sh hmem; exact absurd hmem (List.not_mem_nil sh)
  | cons sh0 rest ih =>
    intro hnodup sh hmem
    rcases List.mem_cons.mp hmem with heq | hmem'
    · rw [heq]
      simp [dictGet, List.lookup]
    · have hne : sh.service.name ≠ sh0.service.name := by
        intro he
        have hmm : sh.service.name ∈ rest.map (fun sh => sh.service.name) :=
          List.mem_map_of_mem (fun sh => sh.service.name) hmem'
        rw [he] at hmm
        exact (List.nodup_cons.mp hnodup).1 hmm
      simp only [List.map_cons, dictGet, List.lookup]
      have hb : (sh.service.name == sh0.service.name) = false := by simp [hne]
      rw [hb]
      exact ih (List.nodup_cons.mp hnodup).2 sh hmem'

theorem init_ok_parts {V : Type} (shs : List (ServiceHandler V)) (executor : Option Unit)
    (h : Handler V) (hinit : Handler.init shs executor = .ok h) :
    h.executor = executor
      ∧ h.service_handlers = shs.map (fun sh => (sh.service.name, sh)) := by
  unfold Handler.init at hinit
  cases hreg : registerAll executor [] shs with
  | ok m =>
    rw [hreg] at hinit
    simp only [Except.map] at hinit
    have hm : Handler.mk executor m = h := by
      cases hinit; rfl
    have := registerAll_ok_eq executor shs [] m hreg
    rw [← hm]
    simp only [List.nil_append] at this
    exact ⟨rfl, this⟩
  | error e =>
    rw [hreg] at hinit
    simp [Except.map] at hinit

end Nexus

namespace Nexus

/-- Fixture: a service handler named "a" with no operations. -/
def shFixtureA : ServiceHandler Nat := ServiceHandler.mk (ServiceDefinition.mk "a" []) []

/-- Fixture: an operation handler whose start method is not `async def`. -/
def ophBadStart : OperationHandler Nat :=
  OperationHandler.mk
    false (fun _ v => .ok (.sync v))
    true (fun _ _ => .ok ())
    true (fun _ _ => .ok (OperationInfo.mk "t" .RUNNING))
    true (fun _ _ => .ok 0)

def shBadStart : ServiceHandler Nat :=
  ServiceHandler.mk (ServiceDefinition.mk "s3" [("op", opFixture "op")]) [("op", ophBadStart)]

/-- Fixture: an operation handler with `async def` start and cancel but
non-`async def` fetch methods. -/
def ophSyncFetch : OperationHandler Nat :=
  OperationHandler.mk
    true (fun _ v => .ok (.sync v))
    true (fun _ _ => .ok ())
    false (fun _ _ => .ok (OperationInfo.mk "t" .RUNNING))
    false (fun _ _ => .ok 7)

def shSyncFetch : ServiceHandler Nat :=
  ServiceHandler.mk (ServiceDefinition.mk "s2" [("op", opFixture "op")]) [("op", ophSyncFetch)]

/-- C5: Constructing a handler from service handlers with a repeated service
name fails with a `RuntimeError` naming a name that occurs at least twice;
with pairwise-distinct names (and an executor compatible with the handlers'
methods) construction succeeds, keeps the executor, and registers every
handler under its service name. -/
theorem C5_duplicate_service_name :
    (∀ (V : Type) (shs : List (ServiceHandler V)) (executor : Option Unit),
      handlersCompatible executor shs →
      ¬ (shs.map (fun sh => sh.service.name)).Nodup →
      ∃ n, Handler.init shs executor = .error (.runtimeError (duplicateServiceMessage n))
        ∧ 2 ≤ (shs.map (fun sh => sh.service.name)).count n)
    ∧ (∀ (V : Type) (shs : List (ServiceHandler V)) (executor : Option Unit),
      handlersCompatible executor shs →
      (shs.map (fun sh => sh.service.name)).Nodup →
      ∃ h, Handler.init shs executor = .ok h ∧ h.executor = executor
        ∧ ∀ sh ∈ shs, dictGet sh.service.name h.service_handlers = some sh) := by
  constructor
  · intro V shs executor hcompat hnd
    rcases registerAll_dup executor shs [] hcompat (by simp) (by simpa using hnd) with
      ⟨n, herr, hcount⟩
    refine ⟨n, ?_, by simpa using hcount⟩
    unfold Handler.init
    rw [herr]
    rfl
  · intro V shs executor hcompat hnd
    have hreg := registerAll_ok executor shs [] hnd (fun sh _ => rfl) hcompat
    refine ⟨Handler.mk executor (shs.map fun sh => (sh.service.name, sh)), ?_, rfl, ?_⟩
    · unfold Handler.init
      rw [hreg]
      rfl
    · intro sh hm
      exact dictGet_map_pairs shs hnd sh hm

/-- Witness for C5: two handlers both named "a" fail with the duplicate
message for "a"; a single handler registers successfully. -/
theorem C5_duplicate_service_name_witness :
    Handler.init [shFixtureA, shFixtureA] (some ())
      = .error (.runtimeError (duplicateServiceMessage "a"))
    ∧ Handler.init [shFixture] (some ())
      = .ok (Handler.mk (some ()) [("svc", shFixture)]) := by
  constructor
  · rcases C5_duplicate_service_name.1 Nat [shFixtureA, shFixtureA] (some ())
      (Or.inl rfl) (by simp [shFixtureA]) with ⟨n, herr, hcount⟩
    have hn : n = "a" := by
      by_contra hne
      have : ("a" == n) = false := by
        simp only [beq_eq_false_iff_ne, ne_eq]
        exact fun e => hne e.symm
      simp [shFixtureA, List.count_cons, this] at hcount
    rw [hn] at herr
    exact herr
  · rfl

/-- C4: Invoking a blocking (non-`async def`) operation method with no
executor is a configuration error caught as early as possible.  First
conjunct: with no executor, construction fails whenever any registered
operation's start or cancel method is not `async def`.  Second and third
conjuncts: a handler successfully constructed with no executor (hence all
start/cancel methods `async def`) fails with the configuration `RuntimeError`
on the first call to a non-`async def` fetch_info or fetch_result method. -/
theorem C4_blocking_method_without_executor :
    (∀ (V : Type) (shs : List (ServiceHandler V)) (sh : ServiceHandler V)
        (op_name : String) (oph : OperationHandler V),
      sh ∈ shs → (op_name, oph) ∈ sh.operation_handlers →
      (oph.startIsAsync = false ∨ oph.cancelIsAsync = false) →
      ∀ h, Handler.init shs none ≠ .ok h)
    ∧ (∀ (V : Type) (shs : List (ServiceHandler V)) (h : Handler V)
        (ctx : FetchOperationInfoContext) (token : String) (sh : ServiceHandler V)
        (opd : Operation) (oph : OperationHandler V),
      Handler.init shs none = .ok h →
      dictGet ctx.service h.service_handlers = some sh →
      dictGet ctx.operation sh.service.operations = some opd →
      dictGet ctx.operation sh.operation_handlers = some oph →
      oph.fetchInfoIsAsync = false →
      h.fetch_operation_info ctx token = .error (.runtimeError fetchInfoNoExecutorMessage))
    ∧ (∀ (V : Type) (shs : List (ServiceHandler V)) (h : Handler V)
        (ctx : FetchOperationResultContext) (token : String) (sh : ServiceHandler V)
        (opd : Operation) (oph : OperationHandler V),
      Handler.init shs none = .ok h →
      ctx.wait = none → requestTimeoutHeaderTruthy ctx.headers = false →
      dictGet ctx.service h.service_handlers = some sh →
      dictGet ctx.operation sh.service.operations = some opd →
      dictGet ctx.operation sh.operation_handlers = some oph →
      oph.fetchResultIsAsync = false →
      h.fetch_operation_result ctx token = .error (.runtimeError fetchResultNoExecutorMessage)) := by
  refine ⟨?_, ?_, ?_⟩
  · intro V shs sh op_name oph hsh hop hbad h hok
    unfold Handler.init at hok
    cases hreg : registerAll none [] shs with
    | error e => rw [hreg] at hok; simp [Except.map] at hok
    | ok m =>
      have hchk := registerAll_none_ok_all_async shs [] m hreg sh hsh
      have := (checkOpsAsync_eq_none sh.service.name sh.operation_handlers).mp hchk
        (op_name, oph) hop
      rcases hbad with hb | hb
      · rw [this.1] at hb; exact absurd hb (by simp)
      · rw [this.2] at hb; exact absurd hb (by simp)
  · intro V shs h ctx token sh opd oph hinit hserv hopd hoph hflag
    have hex : h.executor = none := (init_ok_parts shs none h hinit).1
    simp [Handler.fetch_operation_info, Handler.get_service_handler,
      ServiceHandler.get_operation_handler, hserv, hopd, hoph, hflag, hex,
      Except.bind, bind]
  · intro V shs h ctx token sh opd oph hinit hwait hhdr hserv hopd hoph hflag
    have hex : h.executor = none := (init_ok_parts shs none h hinit).1
    simp [Handler.fetch_operation_result, Handler.get_service_handler,
      ServiceHandler.get_operation_handler, hserv, hopd, hoph, hflag, hex,
      hwait, hhdr, Except.bind, bind]

/-- Witness for C4: a non-`async def` start method makes construction fail
with no executor; a handler whose op has non-`async def` fetch methods (but
`async def` start/cancel) constructs with no executor and fails on the first
fetch_info / fetch_result call. -/
theorem C4_blocking_method_without_executor_witness :
    Handler.init [shBadStart] none ≠ .ok (Handler.mk none [("s3", shBadStart)])
    ∧ (Handler.mk none [("s2", shSyncFetch)]).fetch_operation_info
        (FetchOperationInfoContext.mk "s2" "op" []) "tok"
      = .error (.runtimeError fetchInfoNoExecutorMessage)
    ∧ (Handler.mk none [("s2", shSyncFetch)]).fetch_operation_result
        (FetchOperationResultContext.mk "s2" "op" [] none) "tok"
      = .error (.runtimeError fetchResultNoExecutorMessage) := by
  refine ⟨?_, ?_, ?_⟩
  · exact C4_blocking_method_without_executor.1 Nat [shBadStart] shBadStart "op" ophBadStart
      (by simp) (by simp [shBadStart]) (Or.inl rfl) _
  · exact C4_blocking_method_without_executor.2.1 Nat [shSyncFetch] _ _ "tok" shSyncFetch
      (opFixture "op") ophSyncFetch rfl rfl rfl rfl rfl
  · exact C4_blocking_method_without_executor.2.2 Nat [shSyncFetch] _ _ "tok" shSyncFetch
      (opFixture "op") ophSyncFetch rfl rfl rfl rfl rfl rfl rfl

end Nexus

namespace Nexus

/-- Message of `cancel` on a synchronously-responding operation
(`src/nexusrpc/syncio/handler/_core.py` lines 197-200 and
`src/nexusrpc/handler/_decorators.py` lines 307-334). -/
def cancelSyncUnsupportedMessage : String :=
  "An operation that responded synchronously cannot be cancelled."

/-- Message of `fetch_info` on a synchronously-responding operation
(`src/nexusrpc/syncio/handler/_core.py` lines 187-190 and
`src/nexusrpc/handler/_operation_handler.py` lines 123-128). -/
def fetchInfoSyncUnsupportedMessage : String :=
  "Cannot fetch operation info for an operation that responded synchronously."

/-- Message of `fetch_result` on a synchronously-responding operation
(`src/nexusrpc/syncio/handler/_core.py` lines 192-195 and
`src/nexusrpc/handler/_operation_handler.py` lines 130-135). -/
def fetchResultSyncUnsupportedMessage : String :=
  "Cannot fetch the result of an operation that responded synchronously."

/-- The syncio `SyncOperationHandler`
(`src/nexusrpc/syncio/handler/_core.py` lines 154-200): holds the `def` start
callable passed to its constructor. -/
structure SyncioSyncOperationHandler (V : Type) where
  start_fn : StartOperationContext → V → Except PyErr V

/-- `SyncOperationHandler.start`: wraps the user callable's return value in
`StartOperationResultSync`. -/
def SyncioSyncOperationHandler.start {V : Type} (s : SyncioSyncOperationHandler V)
    (ctx : StartOperationContext) (input : V) : Except PyErr (StartOperationResult V) :=
  (s.start_fn ctx input).map StartOperationResult.sync

/-- `SyncOperationHandler.fetch_info`: unconditionally raises. -/
def SyncioSyncOperationHandler.fetch_info {V : Type} (_ : SyncioSyncOperationHandler V)
    (_ : FetchOperationInfoContext) (_ : String) : Except PyErr OperationInfo :=
  .error (.notImplementedError fetchInfoSyncUnsupportedMessage)

/-- `SyncOperationHandler.fetch_result`: unconditionally raises. -/
def SyncioSyncOperationHandler.fetch_result {V : Type} (_ : SyncioSyncOperationHandler V)
    (_ : FetchOperationResultContext) (_ : String) : Except PyErr V :=
  .error (.notImplementedError fetchResultSyncUnsupportedMessage)

/-- `SyncOperationHandler.cancel`: unconditionally raises. -/
def SyncioSyncOperationHandler.cancel {V : Type} (_ : SyncioSyncOperationHandler V)
    (_ : CancelOperationContext) (_ : String) : Except PyErr Unit :=
  .error (.notImplementedError cancelSyncUnsupportedMessage)

/-- The operation handler produced by the `sync_operation_handler` decorator's
factory (`src/nexusrpc/handler/_decorators.py` lines 279-335).  Both the
`async def` and the `def` branch install a start method that wraps the user
start method's result in `StartOperationResultSync` and a cancel method that
unconditionally raises; `fetch_info` and `fetch_result` keep the
`SyncOperationHandler` class bodies (plain `def`s that unconditionally raise).
`isAsync` is whether the user start method is `async def`; it tags the
installed start and cancel methods. -/
def sync_operation_handler {S V : Type} (isAsync : Bool)
    (start_method : S → StartOperationContext → V → Except PyErr V)
    (service : S) : OperationHandler V :=
  OperationHandler.mk
    isAsync
    (fun ctx input => (start_method service ctx input).map StartOperationResult.sync)
    isAsync
    (fun _ _ => .error (.notImplementedError cancelSyncUnsupportedMessage))
    false
    (fun _ _ => .error (.notImplementedError fetchInfoSyncUnsupportedMessage))
    false
    (fun _ _ => .error (.notImplementedError fetchResultSyncUnsupportedMessage))

/-- C3: For every synchronously-completing operation handler (the syncio
`SyncOperationHandler` class and the handler produced by the
`sync_operation_handler` decorator), every context and token: cancel,
fetch_info and fetch_result each always fail with their fixed
"responded synchronously" `NotImplementedError`; the final conjunct shows any
number of repeated calls produce the identical error, so the operation has no
further observable lifecycle after start. -/
theorem C3_sync_operation_is_terminal :
    (∀ (V : Type) (s : SyncioSyncOperationHandler V)
        (cctx : CancelOperationContext) (ictx : FetchOperationInfoContext)
        (rctx : FetchOperationResultContext) (token : String),
      s.cancel cctx token = .error (.notImplementedError cancelSyncUnsupportedMessage)
      ∧ s.fetch_info ictx token = .error (.notImplementedError fetchInfoSyncUnsupportedMessage)
      ∧ s.fetch_result rctx token = .error (.notImplementedError fetchResultSyncUnsupportedMessage))
    ∧ (∀ (S V : Type) (isAsync : Bool)
        (f : S → StartOperationContext → V → Except PyErr V) (svc : S)
        (cctx : CancelOperationContext) (ictx : FetchOperationInfoContext)
        (rctx : FetchOperationResultContext) (token : String),
      (sync_operation_handler isAsync f svc).cancel cctx token
        = .error (.notImplementedError cancelSyncUnsupportedMessage)
      ∧ (sync_operation_handler isAsync f svc).fetch_info ictx token
        = .error (.notImplementedError fetchInfoSyncUnsupportedMessage)
      ∧ (sync_operation_handler isAsync f svc).fetch_result rctx token
        = .error (.notImplementedError fetchResultSyncUnsupportedMessage))
    ∧ (∀ (V : Type) (s : SyncioSyncOperationHandler V)
        (calls : List (FetchOperationResultContext × String)),
      calls.map (fun c => s.fetch_result c.1 c.2)
        = calls.map (fun _ =>
            (.error (.notImplementedError fetchResultSyncUnsupportedMessage) : Except PyErr V)))
    ∧ (∀ (V : Type) (s : SyncioSyncOperationHandler V)
        (calls : List (CancelOperationContext × String)),
      calls.map (fun c => s.cancel c.1 c.2)
        = calls.map (fun _ =>
            (.error (.notImplementedError cancelSyncUnsupportedMessage) : Except PyErr Unit))) := by
  refine ⟨fun V s cctx ictx rctx token => ⟨rfl, rfl, rfl⟩,
    fun S V isAsync f svc cctx ictx rctx token => ⟨rfl, rfl, rfl⟩, ?_, ?_⟩
  · intro V s calls
    induction calls with
    | nil => rfl
    | cons c cs ih => simp [ih, SyncioSyncOperationHandler.fetch_result]
  · intro V s calls
    induction calls with
    | nil => rfl
    | cons c cs ih => simp [ih, SyncioSyncOperationHandler.cancel]

/-- C6: The synchronous path loses nothing: when the user start method
returns `w`, the operation handler's `start` returns `Sync(w)` — both for the
handler built by the `sync_operation_handler` decorator factory and for the
syncio `SyncOperationHandler`. -/
theorem C6_sync_start_preserves_value :
    (∀ (S V : Type) (isAsync : Bool)
        (f : S → StartOperationContext → V → Except PyErr V) (svc : S)
        (ctx : StartOperationContext) (v w : V),
      f svc ctx v = .ok w →
      (sync_operation_handler isAsync f svc).start ctx v = .ok (.sync w))
    ∧ (∀ (V : Type) (s : SyncioSyncOperationHandler V)
        (ctx : StartOperationContext) (v w : V),
      s.start_fn ctx v = .ok w →
      s.start ctx v = .ok (.sync w)) := by
  constructor
  · intro S V isAsync f svc ctx v w hf
    simp [sync_operation_handler, hf, Except.map]
  · intro V s ctx v w hf
    simp [SyncioSyncOperationHandler.start, hf, Except.map]

/-- Witness for C6 at concrete start methods returning `input + 1` and
`input * 2`. -/
theorem C6_sync_start_preserves_value_witness :
    (sync_operation_handler true (fun (_ : Unit) _ (n : Nat) => .ok (n + 1)) ()).start
      (StartOperationContext.mk "s" "o" [] "r") 1 = .ok (.sync 2)
    ∧ (SyncioSyncOperationHandler.mk (fun _ (n : Nat) => .ok (n * 2))).start
      (StartOperationContext.mk "s" "o" [] "r") 3 = .ok (.sync 6) := by
  constructor
  · exact C6_sync_start_preserves_value.1 Unit Nat true _ () _ 1 2 rfl
  · exact C6_sync_start_preserves_value.2 Nat _ _ 3 6 rfl

/-- The observable completion behaviour of an `async def` coroutine once
awaited: it either completes with a value or never completes. -/
inductive CoOutcome (α : Type) where
  | completes (value : α)
  | neverCompletes
deriving DecidableEq, Repr

/-- `UncancellableOperationTaskCancellation` from
`src/nexusrpc/handler/_cancellation.py` (lines 35-52): the default token used
when a Nexus worker does not implement task cancellation.  It is stateless. -/
structure UncancellableOperationTaskCancellation where
deriving DecidableEq, Repr

/-- `is_cancelled`: always reports not cancelled. -/
def UncancellableOperationTaskCancellation.is_cancelled
    (_ : UncancellableOperationTaskCancellation) : Bool := false

/-- `cancellation_details`: no cancellation data is ever available. -/
def UncancellableOperationTaskCancellation.cancellation_details
    (_ : UncancellableOperationTaskCancellation) : Option String := none

/-- `wait_until_cancelled`: returns `False` without blocking, for every
timeout (the timeout value, a float in the source, is never inspected, so its
type is a parameter here). -/
def UncancellableOperationTaskCancellation.wait_until_cancelled {T : Type}
    (_ : UncancellableOperationTaskCancellation) (_timeout : Option T) : Bool := false

/-- `wait_until_cancelled_async`: the body is `pass`, so the coroutine
completes immediately with `None`. -/
def UncancellableOperationTaskCancellation.wait_until_cancelled_async
    (_ : UncancellableOperationTaskCancellation) : CoOutcome Unit :=
  .completes ()

/-- C7 counterexample: the claim says `waitAsync()` never completes, but the
source's `wait_until_cancelled_async` body is `pass`: the coroutine completes
immediately. -/
theorem C7_default_token_counterexample :
    UncancellableOperationTaskCancellation.mk.wait_until_cancelled_async
      = CoOutcome.completes ()
    ∧ UncancellableOperationTaskCancellation.mk.wait_until_cancelled_async
      ≠ CoOutcome.neverCompletes := by
  exact ⟨rfl, by decide⟩

/-- C7 (amended): the default never-cancelling token always reports not
cancelled, has no details, returns `False` from `wait(timeout)` for every
timeout (without blocking; real time is outside the model), and its async wait
completes immediately rather than never completing. -/
theorem C7_default_token_amended :
    ∀ (T : Type) (u : UncancellableOperationTaskCancellation) (timeout : Option T),
      u.is_cancelled = false
      ∧ u.cancellation_details = none
      ∧ u.wait_until_cancelled timeout = false
      ∧ u.wait_until_cancelled_async = CoOutcome.completes () :=
  fun _ _ _ => ⟨rfl, rfl, rfl, rfl⟩

/-- Events observable around a start call as it passes through the
interceptor chain. -/
inductive InterceptEvent where
  | before (name : String)
  | baseStart
  | after (name : String)
deriving DecidableEq, Repr

/-- A start callable instrumented with the trace of interceptor events its
invocation produces. -/
structure TracedStart (V : Type) where
  run : StartOperationContext → V →
    Except PyErr (StartOperationResult V) × List InterceptEvent

/-- Modelled from the spec: the base of the interceptor chain is the routed
operation handler's start method (emitting the single base-start event).  The
interceptor classes (`OperationHandlerInterceptor`,
`InterceptedOperationHandler`) are referenced by the repository's tests but
are not present under `src/`; spec §4.4 specifies the chain. -/
def baseTracedStart {V : Type} (oph : OperationHandler V) : TracedStart V :=
  TracedStart.mk (fun ctx v => (oph.start ctx v, [InterceptEvent.baseStart]))

/-- Modelled from the spec: one interceptor receives the next link and returns
a wrapper that observes the call before delegating and observes the result
after; the result itself passes through unchanged. -/
def interceptStart {V : Type} (name : String) (next : TracedStart V) : TracedStart V :=
  TracedStart.mk (fun ctx v =>
    let r := next.run ctx v
    (r.1, InterceptEvent.before name :: r.2 ++ [InterceptEvent.after name]))

/-- Modelled from the spec: interceptors are applied in configuration order
with the first configured interceptor outermost. -/
def applyInterceptors {V : Type} (names : List String) (base : TracedStart V) : TracedStart V :=
  names.foldr interceptStart base

/-- C8: With interceptors `[A, B]` configured around a base operation handler,
every dispatched start call is observed in the order
A.before, B.before, base.start, B.after, A.after; with `[A]` alone the order
is A.before, base.start, A.after.  The general first conjunct: the trace is
the configured names in order, then the base call, then the names in reverse
order, and the result is exactly the base handler's result (the chain does
not alter it). -/
theorem C8_interceptor_order :
    (∀ (V : Type) (names : List String) (oph : OperationHandler V)
        (ctx : StartOperationContext) (v : V),
      ((applyInterceptors names (baseTracedStart oph)).run ctx v).2
        = names.map InterceptEvent.before ++ [InterceptEvent.baseStart]
          ++ (names.reverse.map InterceptEvent.after)
      ∧ ((applyInterceptors names (baseTracedStart oph)).run ctx v).1 = oph.start ctx v)
    ∧ (∀ (V : Type) (A B : String) (oph : OperationHandler V)
        (ctx : StartOperationContext) (v : V),
      ((applyInterceptors [A, B] (baseTracedStart oph)).run ctx v).2
        = [.before A, .before B, .baseStart, .after B, .after A]
      ∧ ((applyInterceptors [A] (baseTracedStart oph)).run ctx v).2
        = [.before A, .baseStart, .after A]) := by
  have hgen : ∀ (V : Type) (names : List String) (oph : OperationHandler V)
      (ctx : StartOperationContext) (v : V),
      ((applyInterceptors names (baseTracedStart oph)).run ctx v).2
        = names.map InterceptEvent.before ++ [InterceptEvent.baseStart]
          ++ (names.reverse.map InterceptEvent.after)
      ∧ ((applyInterceptors names (baseTracedStart oph)).run ctx v).1 = oph.start ctx v := by
    intro V names oph ctx v
    induction names with
    | nil => exact ⟨rfl, rfl⟩
    | cons n ns ih =>
      constructor
      · show (InterceptEvent.before n :: ((applyInterceptors ns (baseTracedStart oph)).run ctx v).2
          ++ [InterceptEvent.after n]) = _
        rw [ih.1]
        simp
      · show ((applyInterceptors ns (baseTracedStart oph)).run ctx v).1 = _
        exact ih.2
  constructor
  · exact hgen
  · intro V A B oph ctx v
    constructor
    · rw [(hgen V [A, B] oph ctx v).1]; rfl
    · rw [(hgen V [A] oph ctx v).1]; rfl

end Nexus

namespace Nexus

/-- Python `issubclass` on class objects: `mro c` gives the (strict) ancestor
classes of class `c`; `issubclass` is reflexive. -/
def issubclass (mro : Nat → List Nat) (a b : Nat) : Bool :=
  a == b || (mro a).contains b

/-- Rendering of an optional Python type object inside an error message (the
source interpolates the repr of the class object; the exact rendering is not
load-bearing for any property proved here). -/
def pyTypeStr : Option PyType → String
  | none => "None"
  | some .any => "typing.Any"
  | some (.cls i) => "<class " ++ toString i ++ ">"

/-- The input-type condition of `validate_operation_handler_methods`
(`src/nexusrpc/handler/_operation_handler.py` lines 218-233): an error is
raised only when both types are present, neither is `Any`, and the definition
input type is neither equal to nor a subclass of the handler input type. -/
def inputTypeIncompatible (mro : Nat → List Nat)
    (op_input op_defn_input : Option PyType) : Bool :=
  match op_input, op_defn_input with
  | some (.cls o), some (.cls d) => !(d == o || issubclass mro d o)
  | _, _ => false

/-- The output-type condition (lines 234-245): an error is raised only when
both types are present, neither is `Any`, and the handler output type is not a
subclass of the definition output type. -/
def outputTypeIncompatible (mro : Nat → List Nat)
    (op_output op_defn_output : Option PyType) : Bool :=
  match op_output, op_defn_output with
  | some (.cls o), some (.cls d) => !(issubclass mro o d)
  | _, _ => false

/-- The missing-operation message (lines 205-208).  `sd_name` stands in for
the interpolated repr of the service definition. -/
def missingOperationMessage (user_service_cls op_name sd_name : String) : String :=
  ("Service \x27" ++ user_service_cls ++ "\x27 does not implement operation \x27")
    ++ op_name ++ ("\x27 in interface \x27" ++ sd_name ++ "\x27. ")

/-- The input-variance error message (lines 228-233).  The doubled space
before "in interface" reproduces the source's f-string concatenation. -/
def inputTypeMessage (user_service_cls op_name : String)
    (op_input op_defn_input : Option PyType) (sd_name : String) : String :=
  "Operation \x27" ++ op_name ++ ("\x27 in service \x27" ++ user_service_cls
    ++ "\x27 has input type \x27" ++ pyTypeStr op_input
    ++ "\x27, which is not compatible with the input type \x27" ++ pyTypeStr op_defn_input
    ++ "\x27  in interface \x27" ++ sd_name
    ++ "\x27. The input type must be the same as or a superclass of the operation definition input type.")

/-- The output-variance error message (lines 241-245). -/
def outputTypeMessage (user_service_cls op_name : String)
    (op_output op_defn_output : Option PyType) (sd_name : String) : String :=
  "Operation \x27" ++ op_name ++ ("\x27 in service \x27" ++ user_service_cls
    ++ "\x27 has output type \x27" ++ pyTypeStr op_output
    ++ "\x27, which is not compatible with the output type \x27" ++ pyTypeStr op_defn_output
    ++ "\x27 in interface \x27" ++ sd_name
    ++ "\x27. The output type must be the same as or a subclass of the operation definition output type.")

/-- One iteration of the validation loop of
`validate_operation_handler_methods` for a definition operation: the user
method must exist (else a `TypeError` naming the operation), then the two
variance checks run.  The user methods map directly to their
`__nexus_operation__` `Operation` records. -/
def checkOperationHandlerMethod (mro : Nat → List Nat) (user_service_cls : String)
    (sd : ServiceDefinition) (user_methods : List (String × Operation))
    (op_name : String) (op_defn : Operation) : Except PyErr Unit :=
  match dictGet op_name user_methods with
  | none => .error (.typeError (missingOperationMessage user_service_cls op_name sd.name))
  | some op =>
    if inputTypeIncompatible mro op.input_type op_defn.input_type then
      .error (.typeError
        (inputTypeMessage user_service_cls op_name op.input_type op_defn.input_type sd.name))
    else if outputTypeIncompatible mro op.output_type op_defn.output_type then
      .error (.typeError
        (outputTypeMessage user_service_cls op_name op.output_type op_defn.output_type sd.name))
    else .ok ()

/-- The for-loop of `validate_operation_handler_methods` over the service
definition's operations, in order. -/
def validateLoop (mro : Nat → List Nat) (user_service_cls : String)
    (sd : ServiceDefinition) (user_methods : List (String × Operation)) :
    List (String × Operation) → Except PyErr Unit
  | [] => .ok ()
  | (op_name, op_defn) :: rest =>
    match checkOperationHandlerMethod mro user_service_cls sd user_methods op_name op_defn with
    | .error e => .error e
    | .ok _ => validateLoop mro user_service_cls sd user_methods rest

/-- Python `a.keys() > b.keys()`: strict superset as sets. -/
def isStrictKeySuperset (a b : List String) : Bool :=
  b.all (fun k => a.contains k) && !(a.all (fun k => b.contains k))

/-- Message for missing operations (lines 246-250).  Python renders an
unordered set; the enumeration is rendered sorted here and is not
load-bearing. -/
def missingOperationsSetMessage (user_service_cls sd_name : String)
    (missing : List String) : String :=
  "Service \x27" ++ user_service_cls
    ++ "\x27 does not implement all operations in interface \x27" ++ sd_name
    ++ "\x27. Missing operations: " ++ String.intercalate ", " (sortedStrings missing)

/-- Message for extra operations (lines 251-255). -/
def extraOperationsSetMessage (user_service_cls sd_name : String)
    (extra : List String) : String :=
  "Service \x27" ++ user_service_cls
    ++ "\x27 implements more operations than the interface \x27" ++ sd_name
    ++ "\x27. Extra operations: " ++ String.intercalate ", " (sortedStrings extra)

/-- `validate_operation_handler_methods` from
`src/nexusrpc/handler/_operation_handler.py` (lines 197-255): the per-operation
loop, then the key-set comparisons. -/
def validate_operation_handler_methods (mro : Nat → List Nat) (user_service_cls : String)
    (user_methods : List (String × Operation)) (sd : ServiceDefinition) :
    Except PyErr Unit :=
  match validateLoop mro user_service_cls sd user_methods sd.operations with
  | .error e => .error e
  | .ok _ =>
    let defs_keys := sd.operations.map Prod.fst
    let user_keys := user_methods.map Prod.fst
    if isStrictKeySuperset defs_keys user_keys then
      .error (.typeError (missingOperationsSetMessage user_service_cls sd.name
        (defs_keys.filter (fun k => !(user_keys.contains k)))))
    else if isStrictKeySuperset user_keys defs_keys then
      .error (.typeError (extraOperationsSetMessage user_service_cls sd.name
        (user_keys.filter (fun k => !(defs_keys.contains k)))))
    else .ok ()

/-- `e` is a `TypeError` whose message contains `n`. -/
def PyErr.isTypeErrorNaming (e : PyErr) (n : String) : Prop :=
  match e with
  | .typeError msg => n.data <:+: msg.data
  | _ => False

theorem substring_of_append (x n y : String) : n.data <:+: (x ++ n ++ y).data := by
  refine ⟨x.data, y.data, ?_⟩
  simp [String.data_append]

theorem validateLoop_ok {mro : Nat → List Nat} {cls : String} {sd : ServiceDefinition}
    {um : List (String × Operation)} :
    ∀ (ops : List (String × Operation)), validateLoop mro cls sd um ops = .ok () →
      ∀ p ∈ ops, checkOperationHandlerMethod mro cls sd um p.1 p.2 = .ok () := by
  intro ops
  induction ops with
  | nil => intro _ p hmem; exact absurd hmem (List.not_mem_nil p)
  | cons q rest ih =>
    intro h p hmem
    cases q with
    | mk op_name op_defn =>
      unfold validateLoop at h
      cases hchk : checkOperationHandlerMethod mro cls sd um op_name op_defn with
      | error e => rw [hchk] at h; exact absurd h (by simp)
      | ok u =>
        rw [hchk] at h
        rcases List.mem_cons.mp hmem with heq | hmem'
        · rw [heq]
          cases u
          exact hchk
        · exact ih h p hmem'

end Nexus

namespace Nexus

/-- C9: Validation of a service handler class against a service definition
succeeds only if, for every definition operation whose declared and
implemented input/output types are both present and neither is `Any`, the
handler input type equals the declared input type or is a superclass of it
(the declared class is a subclass of the handler class), and the handler
output type is the declared output type or a subclass of it; every definition
operation must also be implemented.  Any violating per-operation check fails
with a `TypeError` whose message names the operation, and such a failure is
the result of the whole validation (shown for the first definition
operation). -/
theorem C9_validation_variance :
    (∀ (mro : Nat → List Nat) (cls : String) (um : List (String × Operation))
        (sd : ServiceDefinition),
      validate_operation_handler_methods mro cls um sd = .ok () →
      ∀ (op_name : String) (op_defn : Operation) (op : Operation),
        (op_name, op_defn) ∈ sd.operations →
        dictGet op_name um = some op →
        (∀ o d, op.input_type = some (.cls o) → op_defn.input_type = some (.cls d) →
          (d = o ∨ issubclass mro d o = true))
        ∧ (∀ o d, op.output_type = some (.cls o) → op_defn.output_type = some (.cls d) →
          issubclass mro o d = true))
    ∧ (∀ (mro : Nat → List Nat) (cls : String) (um : List (String × Operation))
        (sd : ServiceDefinition) (op_name : String) (op_defn : Operation),
      validate_operation_handler_methods mro cls um sd = .ok () →
      (op_name, op_defn) ∈ sd.operations →
      dictGet op_name um ≠ none)
    ∧ (∀ (mro : Nat → List Nat) (cls : String) (sd : ServiceDefinition)
        (um : List (String × Operation)) (op_name : String) (op_defn : Operation) (e : PyErr),
      checkOperationHandlerMethod mro cls sd um op_name op_defn = .error e →
      e.isTypeErrorNaming op_name)
    ∧ (∀ (mro : Nat → List Nat) (cls : String) (um : List (String × Operation))
        (sd : ServiceDefinition) (op_name : String) (op_defn : Operation)
        (rest : List (String × Operation)) (e : PyErr),
      sd.operations = (op_name, op_defn) :: rest →
      checkOperationHandlerMethod mro cls sd um op_name op_defn = .error e →
      validate_operation_handler_methods mro cls um sd = .error e) := by
  have hloop_of_ok : ∀ (mro : Nat → List Nat) (cls : String) (um : List (String × Operation))
      (sd : ServiceDefinition),
      validate_operation_handler_methods mro cls um sd = .ok () →
      validateLoop mro cls sd um sd.operations = .ok () := by
    intro mro cls um sd hval
    unfold validate_operation_handler_methods at hval
    cases hl : validateLoop mro cls sd um sd.operations with
    | error e => rw [hl] at hval; exact absurd hval (by simp)
    | ok u => cases u; rfl
  refine ⟨?_, ?_, ?_, ?_⟩
  · intro mro cls um sd hval op_name op_defn op hmem hget
    have hchk : checkOperationHandlerMethod mro cls sd um op_name op_defn = .ok () :=
      validateLoop_ok sd.operations (hloop_of_ok mro cls um sd hval) (op_name, op_defn) hmem
    unfold checkOperationHandlerMethod at hchk
    by_cases hin : inputTypeIncompatible mro op.input_type op_defn.input_type = true
    · simp [hget, hin] at hchk
    · have hin' : inputTypeIncompatible mro op.input_type op_defn.input_type = false :=
        Bool.eq_false_iff.mpr hin
      by_cases hout : outputTypeIncompatible mro op.output_type op_defn.output_type = true
      · simp [hget, hin', hout] at hchk
      · have hout' : outputTypeIncompatible mro op.output_type op_defn.output_type = false :=
          Bool.eq_false_iff.mpr hout
        constructor
        · intro o d hio hdo
          rw [hio, hdo] at hin'
          have h2 : ¬ d = o → o ∈ mro d := by
            simpa [inputTypeIncompatible, issubclass] using hin'
          by_cases hdeq : d = o
          · exact Or.inl hdeq
          · refine Or.inr ?_
            simp only [issubclass, Bool.or_eq_true, beq_iff_eq]
            exact Or.inr (List.elem_eq_true_of_mem (h2 hdeq))
        · intro o d hio hdo
          rw [hio, hdo] at hout'
          simpa [outputTypeIncompatible] using hout'
  · intro mro cls um sd op_name op_defn hval hmem
    have hchk : checkOperationHandlerMethod mro cls sd um op_name op_defn = .ok () :=
      validateLoop_ok sd.operations (hloop_of_ok mro cls um sd hval) (op_name, op_defn) hmem
    unfold checkOperationHandlerMethod at hchk
    intro hnone
    simp [hnone] at hchk
  · intro mro cls sd um op_name op_defn e hchk
    unfold checkOperationHandlerMethod at hchk
    cases hget : dictGet op_name um with
    | none =>
      simp only [hget] at hchk
      have he : PyErr.typeError (missingOperationMessage cls op_name sd.name) = e := by
        exact Except.error.inj hchk
      rw [← he]
      show op_name.data <:+: (missingOperationMessage cls op_name sd.name).data
      unfold missingOperationMessage
      exact substring_of_append _ _ _
    | some op =>
      simp only [hget] at hchk
      by_cases hin : inputTypeIncompatible mro op.input_type op_defn.input_type = true
      · simp only [hin, if_true] at hchk
        have he : PyErr.typeError
            (inputTypeMessage cls op_name op.input_type op_defn.input_type sd.name) = e :=
          Except.error.inj hchk
        rw [← he]
        show op_name.data
          <:+: (inputTypeMessage cls op_name op.input_type op_defn.input_type sd.name).data
        unfold inputTypeMessage
        exact substring_of_append _ _ _
      · have hin' : inputTypeIncompatible mro op.input_type op_defn.input_type = false :=
          Bool.eq_false_iff.mpr hin
        by_cases hout : outputTypeIncompatible mro op.output_type op_defn.output_type = true
        · simp only [hin', hout, Bool.false_eq_true, if_false, if_true] at hchk
          have he : PyErr.typeError
              (outputTypeMessage cls op_name op.output_type op_defn.output_type sd.name) = e :=
            Except.error.inj hchk
          rw [← he]
          show op_name.data
            <:+: (outputTypeMessage cls op_name op.output_type op_defn.output_type sd.name).data
          unfold outputTypeMessage
          exact substring_of_append _ _ _
        · have hout' : outputTypeIncompatible mro op.output_type op_defn.output_type = false :=
            Bool.eq_false_iff.mpr hout
          simp [hin', hout'] at hchk
  · intro mro cls um sd op_name op_defn rest e hops hchk
    unfold validate_operation_handler_methods
    rw [hops]
    unfold validateLoop
    rw [hchk]

/-- Witness fixtures for C9: `mro0` makes class 2 a subclass of class 1 and
class 4 a subclass of class 3. -/
def mro0 : Nat → List Nat := fun n => if n = 2 then [1] else if n = 4 then [3] else []

def opdOk : Operation := Operation.mk "op" (some "op") (some (.cls 2)) (some (.cls 3))

def sdOk : ServiceDefinition := ServiceDefinition.mk "SD" [("op", opdOk)]

def umOk : List (String × Operation) :=
  [("op", Operation.mk "op" (some "op") (some (.cls 1)) (some (.cls 4)))]

def opdBad : Operation := Operation.mk "op" (some "op") (some (.cls 6)) (some (.cls 3))

def sdBad : ServiceDefinition := ServiceDefinition.mk "SD" [("op", opdBad)]

def umBad : List (String × Operation) :=
  [("op", Operation.mk "op" (some "op") (some (.cls 5)) (some (.cls 4)))]

/-- Witness for C9: a handler whose input type is a strict superclass and
whose output type is a strict subclass validates, and the variance conditions
hold at it; a handler with an unrelated input type makes the per-operation
check fail with a `TypeError` naming the operation, which the whole
validation returns. -/
theorem C9_validation_variance_witness :
    ((2 : Nat) = 1 ∨ issubclass mro0 2 1 = true)
    ∧ issubclass mro0 4 3 = true
    ∧ (PyErr.typeError
        (inputTypeMessage "Cls" "op" (some (.cls 5)) (some (.cls 6)) "SD")).isTypeErrorNaming "op"
    ∧ validate_operation_handler_methods mro0 "Cls" umBad sdBad
      = .error (.typeError (inputTypeMessage "Cls" "op" (some (.cls 5)) (some (.cls 6)) "SD")) := by
  refine ⟨?_, ?_, ?_, ?_⟩
  · exact ((C9_validation_variance.1 mro0 "Cls" umOk sdOk rfl "op" opdOk
      (Operation.mk "op" (some "op") (some (.cls 1)) (some (.cls 4)))
      (by simp [sdOk]) rfl).1 1 2 rfl rfl)
  · exact ((C9_validation_variance.1 mro0 "Cls" umOk sdOk rfl "op" opdOk
      (Operation.mk "op" (some "op") (some (.cls 1)) (some (.cls 4)))
      (by simp [sdOk]) rfl).2 4 3 rfl rfl)
  · exact C9_validation_variance.2.2.1 mro0 "Cls" sdBad umBad "op" opdBad
      (.typeError (inputTypeMessage "Cls" "op" (some (.cls 5)) (some (.cls 6)) "SD")) rfl
  · exact C9_validation_variance.2.2.2 mro0 "Cls" umBad sdBad "op" opdBad []
      (.typeError (inputTypeMessage "Cls" "op" (some (.cls 5)) (some (.cls 6)) "SD")) rfl rfl

end Nexus
